import Mathlib

/-!
Verification of the bootstrap file `src/self-registration-2/src/main.ts`
of the CX repository.

The file is straight-line AngularJS wiring code: it imports a routing
configuration, four components and a service, builds one module named
`app` with a chain of registration calls, and bootstraps the document.
We embed the file as a list of statements (`mainProgram`), give the
AngularJS module/bootstrap API a small-step semantics over an explicit
state (`execStmt`, with the failure modes the real API has: registering
on an undeclared module and re-bootstrapping an element both throw), and
settle the claims about the resulting trace and final state.
-/

namespace CX

/-- Opaque values imported at the top of `main.ts`, apart from the
framework import of `bootstrap` and `module` from the angular package.
Their internals are not part of this file, so they are atoms. -/
inductive Import where
  | routes
  | ApplicationComponent
  | DashboardComponent
  | RegistrationComponent
  | UserService
  | RegistrationSuccessComponent
  deriving DecidableEq, Repr

/-- One registration call chained on an AngularJS module object:
`.config(value)`, `.component(name, value)` or `.service(name, value)`. -/
inductive Registration where
  | config (value : Import)
  | component (name : String) (value : Import)
  | service (name : String) (value : Import)
  deriving DecidableEq, Repr

/-- The DOM node passed to `bootstrap`.  `main.ts` only ever uses the
global `document`. -/
inductive DOMTarget where
  | document
  deriving DecidableEq, Repr

/-- A top-level effectful statement of `main.ts`: a `module(name, deps)`
declaration, a registration chained on a named module, or a
`bootstrap(target, modules)` call. -/
inductive Stmt where
  | moduleDecl (name : String) (deps : List String)
  | register (moduleName : String) (r : Registration)
  | bootstrap (target : DOMTarget) (modules : List String)
  deriving DecidableEq, Repr

/-- Whether a statement is a registration call. -/
def Stmt.isRegister : Stmt → Bool
  | .register _ _ => true
  | _ => false

/-- Whether a statement is a bootstrap call. -/
def Stmt.isBootstrap : Stmt → Bool
  | .bootstrap _ _ => true
  | _ => false

/-- An AngularJS module as accumulated by the declaration chain:
its name, its dependency list, and its registrations in call order. -/
structure ModuleDef where
  name : String
  deps : List String
  registrations : List Registration
  deriving DecidableEq, Repr

/-- The state of the angular runtime while `main.ts` executes: the
declared modules and the bootstrap calls performed so far. -/
structure AngularState where
  modules : List ModuleDef
  bootstrapped : List (DOMTarget × List String)
  deriving DecidableEq, Repr

/-- The state before `main.ts` runs: no module declared, nothing
bootstrapped. -/
def AngularState.empty : AngularState := ⟨[], []⟩

/-- Append a registration to the module of the given name. -/
def addRegistration (mods : List ModuleDef) (name : String)
    (r : Registration) : List ModuleDef :=
  mods.map fun m =>
    if m.name = name then
      { m with registrations := m.registrations ++ [r] }
    else m

/-- Execute one statement.  As in AngularJS, `module(name, deps)`
(re)declares a module, registering on an undeclared module throws, and
bootstrapping an element that is already bootstrapped throws. -/
def execStmt : Stmt → AngularState → Except String AngularState
  | .moduleDecl name deps, st =>
      .ok { st with modules := st.modules ++ [⟨name, deps, []⟩] }
  | .register name r, st =>
      if st.modules.any (fun m => m.name = name) then
        .ok { st with modules := addRegistration st.modules name r }
      else
        .error ("module " ++ name ++ " is not available")
  | .bootstrap tgt mods, st =>
      if st.bootstrapped.any (fun p => p.1 = tgt) then
        .error "target already bootstrapped"
      else
        .ok { st with bootstrapped := st.bootstrapped ++ [(tgt, mods)] }

/-- Execute a list of statements in order, stopping at the first error. -/
def execProgram : List Stmt → AngularState → Except String AngularState
  | [], st => .ok st
  | s :: ss, st => (execStmt s st).bind (execProgram ss)

/-- The statement sequence of `main.ts`, in source order: the
`module('app', ['ui.router'])` declaration, the chained `.config`,
`.component` and `.service` calls, then the single bootstrap call. -/
def mainProgram : List Stmt :=
  [ .moduleDecl "app" ["ui.router"],
    .register "app" (.config .routes),
    .register "app" (.component "applicationComponent" .ApplicationComponent),
    .register "app" (.component "dashboardComponent" .DashboardComponent),
    .register "app" (.service "userService" .UserService),
    .register "app" (.component "registrationComponent" .RegistrationComponent),
    .register "app" (.component "registrationSuccessComponent" .RegistrationSuccessComponent),
    .bootstrap .document ["app", "ngAnimate", "ngAria"] ]

/-- The outcome of running `main.ts` from the empty angular state. -/
def mainResult : Except String AngularState :=
  execProgram mainProgram AngularState.empty

/-- The final angular state of a successful run, if any. -/
def finalState : Option AngularState := mainResult.toOption

/-- The `app` module as it stands when `main.ts` has finished. -/
def appModule : Option ModuleDef :=
  finalState.bind fun st => st.modules.find? (fun m => m.name == "app")

/-- The registrations accumulated on the `app` module, in call order. -/
def appRegistrations : List Registration :=
  ((appModule.map ModuleDef.registrations).getD [])

/-- The value an individual registration call carries. -/
def Registration.payload : Registration → Import
  | .config v => v
  | .component _ v => v
  | .service _ v => v

/-- The container name under which a registration is filed, if it has
one (`.config` blocks are anonymous). -/
def Registration.regName : Registration → Option String
  | .config _ => none
  | .component n _ => some n
  | .service n _ => some n

/-- The six values `main.ts` imports from its own project, in import
order (the routing configuration, the four components, the service). -/
def importedValues : List Import :=
  [ .routes, .ApplicationComponent, .DashboardComponent,
    .RegistrationComponent, .UserService, .RegistrationSuccessComponent ]

/-- The five named pieces registered on the `app` module (the four
components and the service), in registration order. -/
def fivePieces : List Registration :=
  [ .component "applicationComponent" .ApplicationComponent,
    .component "dashboardComponent" .DashboardComponent,
    .service "userService" .UserService,
    .component "registrationComponent" .RegistrationComponent,
    .component "registrationSuccessComponent" .RegistrationSuccessComponent ]

/-- The external environment a browser script could in principle read at
startup (page content, query string, user agent).  `main.ts` reads none
of it. -/
structure ExternalInput where
  pageContent : String
  queryString : String
  userAgent : String
  deriving DecidableEq, Repr

/-- A run of `main.ts` in a given external environment.  The file is
straight-line wiring code with no read of any input, so its statement
sequence, and hence its outcome, does not depend on the environment. -/
def runMain (_input : ExternalInput) : Except String AngularState :=
  execProgram mainProgram AngularState.empty

/-- The text of `src/self-registration-2/src/main.ts`, one entry per
line of the file. -/
def mainTsLines : List String :=
  [ "import \x7b bootstrap, module \x7d from \x27angular\x27;"
  , "import routes from \x27./config/routes\x27;"
  , "import ApplicationComponent from \x27./components/application/application.component\x27;"
  , "import DashboardComponent from \x27./components/dashboard/dashboard.component\x27;"
  , "import RegistrationComponent from \x27./components/registration/registration.component\x27;"
  , "import UserService from \x27./services/user.service\x27;"
  , "import RegistrationSuccessComponent from \x27./components/registration-success/registration-success.component\x27;"
  , ""
  , ""
  , "module(\x27app\x27, ["
  , "    \x27ui.router\x27"
  , "])"
  , "    .config(routes)"
  , "    .component(\x27applicationComponent\x27, ApplicationComponent)"
  , "    .component(\x27dashboardComponent\x27, DashboardComponent)"
  , "    .service(\x27userService\x27, UserService)"
  , "    .component(\x27registrationComponent\x27, RegistrationComponent)"
  , "    .component(\x27registrationSuccessComponent\x27, RegistrationSuccessComponent);"
  , ""
  , "bootstrap(document, [\x27app\x27, \x27ngAnimate\x27, \x27ngAria\x27]);" ]

/-- C1: the bootstrap operation is invoked exactly once in the statement
sequence of `main.ts`, against the global page document, with exactly the
three framework modules `app`, `ngAnimate` and `ngAria` enabled and no
other module; the final state records exactly that one bootstrap. -/
theorem c1_bootstrap_once_document_three_modules :
    mainProgram.filter Stmt.isBootstrap
      = [Stmt.bootstrap DOMTarget.document ["app", "ngAnimate", "ngAria"]] ∧
    finalState.map AngularState.bootstrapped
      = some [(DOMTarget.document, ["app", "ngAnimate", "ngAria"])] := by
  decide

/-- C2: all five named pieces (the four components and the service) are
registered on the `app` module in the statement sequence, and every
registration statement precedes every bootstrap statement. -/
theorem c2_registrations_precede_bootstrap :
    (∀ r ∈ fivePieces, Stmt.register "app" r ∈ mainProgram) ∧
    ∀ i j : Fin mainProgram.length,
      (mainProgram.get i).isRegister = true →
      (mainProgram.get j).isBootstrap = true →
      (i : ℕ) < (j : ℕ) := by
  decide

/-- Witness for C2 at concrete inputs: the registration of the
application component is a statement of `main.ts`, and the registration
statement at index 1 precedes the bootstrap statement at index 7. -/
theorem c2_witness :
    Stmt.register "app"
        (Registration.component "applicationComponent" Import.ApplicationComponent)
      ∈ mainProgram ∧ (1 : ℕ) < (7 : ℕ) :=
  ⟨c2_registrations_precede_bootstrap.1 _ (by decide),
   c2_registrations_precede_bootstrap.2 ⟨1, by decide⟩ ⟨7, by decide⟩
     (by decide) (by decide)⟩

/-- C3: the application module named `app` declares exactly the
dependency list `['ui.router']`. -/
theorem c3_app_module_deps_ui_router :
    appModule.map ModuleDef.deps = some ["ui.router"] := by
  decide

/-- C4: the imported `routes` object is applied to the `app` module via
a `.config` step, that step is the first entry of the declaration chain,
and every later entry of the chain is a component or service
registration, so the config step precedes all of them. -/
theorem c4_config_routes_first :
    appRegistrations.head? = some (Registration.config Import.routes) ∧
    ((appRegistrations.drop 1).all fun r => r.regName.isSome) = true := by
  decide

/-- C5: `main.ts` imports six project values — five pieces besides the
user service (the routing configuration and the four components) plus
the service — they are pairwise distinct, and the payloads of the
registration calls on the `app` module are exactly these six imports,
each appearing in exactly one call. -/
theorem c5_each_import_registered_once :
    importedValues.length = 6 ∧
    (importedValues.filter fun v => v != Import.UserService).length = 5 ∧
    importedValues.Nodup ∧
    (appRegistrations.map Registration.payload).Perm importedValues := by
  decide

/-- C6 counterexample: the bootstrap file `main.ts` does not have 21
lines. -/
theorem c6_counterexample_not_21_lines : mainTsLines.length ≠ 21 := by
  decide

/-- C6 (amended): the bootstrap file `main.ts` has exactly 20 lines. -/
theorem c6_line_count_20 : mainTsLines.length = 20 := by
  decide

/-- C7: running the straight-line setup of `main.ts` under the angular
semantics never raises or returns an error value: the run of the whole
statement sequence succeeds with a final state. -/
theorem c7_no_error : ∃ st, mainResult = Except.ok st :=
  ⟨_, rfl⟩

/-- C8: the registrations on the `app` module occur in exactly this
order: config(routes), component `applicationComponent`, component
`dashboardComponent`, service `userService`, component
`registrationComponent`, component `registrationSuccessComponent` — the
service registration is interleaved between the component
registrations. -/
theorem c8_registration_order :
    appRegistrations =
      [ Registration.config Import.routes,
        Registration.component "applicationComponent" Import.ApplicationComponent,
        Registration.component "dashboardComponent" Import.DashboardComponent,
        Registration.service "userService" Import.UserService,
        Registration.component "registrationComponent" Import.RegistrationComponent,
        Registration.component "registrationSuccessComponent" Import.RegistrationSuccessComponent ] := by
  decide

/-- C9: the five registration names on the `app` module are exactly
`applicationComponent`, `dashboardComponent`, `userService`,
`registrationComponent`, `registrationSuccessComponent`, and they are
pairwise distinct, so no later registration shadows an earlier one. -/
theorem c9_registration_names_distinct :
    appRegistrations.filterMap Registration.regName
      = [ "applicationComponent", "dashboardComponent", "userService",
          "registrationComponent", "registrationSuccessComponent" ] ∧
    (appRegistrations.filterMap Registration.regName).Nodup := by
  decide

/-- C10: the bootstrap sequence is deterministic and input-independent:
any two runs of the setup, in any two external environments, produce the
identical outcome — in particular the same module list (name,
dependencies and registrations in the same order) and the same bootstrap
arguments. -/
theorem c10_deterministic (i1 i2 : ExternalInput) :
    runMain i1 = runMain i2 ∧
    (runMain i1).toOption.map AngularState.modules
      = (runMain i2).toOption.map AngularState.modules ∧
    (runMain i1).toOption.map AngularState.bootstrapped
      = (runMain i2).toOption.map AngularState.bootstrapped :=
  ⟨rfl, rfl, rfl⟩

/-- Witness for C10 at two concrete, distinct environments. -/
theorem c10_witness :
    runMain ⟨"", "", ""⟩ = runMain ⟨"page", "user=1", "browser"⟩ :=
  (c10_deterministic ⟨"", "", ""⟩ ⟨"page", "user=1", "browser"⟩).1

end CX
